import Mathlib

/-!
Shallow embedding of the Shortbread backend (src/backend/main.py).

The service registers two GET routes on a FastAPI app, adds a CORS
middleware with a two-origin allow-list, and returns fixed JSON bodies.
Handlers are modelled as `Except`-valued functions (Python handlers may in
general raise); the framework dispatch `handleRequest` routes on path and
method and falls back to the framework defaults (404 not found,
405 method not allowed, 500 on a raised exception).
-/

/-- JSON values occurring in response bodies (all bodies here are flat
objects whose values are primitives). -/
inductive JsonVal where
  | str (s : String)
  | num (n : Int)
  | bool (b : Bool)
  | null
deriving DecidableEq

def JsonVal.isStr : JsonVal → Bool
  | .str _ => true
  | _ => false

/-- A flat JSON object: an ordered list of key/value pairs. -/
abbrev JsonObj := List (String × JsonVal)

def JsonVal.serialize : JsonVal → String
  | .str s => "\"" ++ s ++ "\""
  | .num n => toString n
  | .bool b => if b then "true" else "false"
  | .null => "null"

/-- Serialize a flat JSON object to its byte representation. -/
def serializeObj (o : JsonObj) : String :=
  "\x7b" ++
    String.intercalate "," (o.map (fun kv => "\"" ++ kv.1 ++ "\":" ++ kv.2.serialize)) ++
  "\x7d"

/-- The pydantic model HealthResponse: three string fields. -/
structure HealthResponse where
  status : String
  message : String
  version : String
deriving DecidableEq

/-- Serialization of a HealthResponse, field order as declared. -/
def HealthResponse.toJson (h : HealthResponse) : JsonObj :=
  [("status", .str h.status), ("message", .str h.message), ("version", .str h.version)]

/-- The CORSMiddleware configuration passed to app.add_middleware. -/
structure CORSConfig where
  allow_origins : List String
  allow_credentials : Bool
  allow_methods : List String
  allow_headers : List String
deriving DecidableEq

/-- The FastAPI application object constructed at module load. -/
structure AppConfig where
  title : String
  descr : String
  version : String
  cors : CORSConfig
deriving DecidableEq

/-- The concrete configuration from main.py. -/
def appConfig : AppConfig :=
  { title := "Shortbread API"
    descr := "API for sharing and organizing short-form videos"
    version := "1.0.0"
    cors :=
      { allow_origins := ["http://localhost:3000", "http://localhost:5173"]
        allow_credentials := true
        allow_methods := ["*"]
        allow_headers := ["*"] } }

/-- An incoming HTTP request: method, path, and arbitrary headers. -/
structure Request where
  method : String
  path : String
  headers : List (String × String)
deriving DecidableEq

/-- An outgoing HTTP response. -/
structure Response where
  status : Nat
  headers : List (String × String)
  body : JsonObj
deriving DecidableEq

/-- The Origin header of a request, when present. -/
def Request.origin (r : Request) : Option String :=
  (r.headers.find? (fun kv => kv.1 == "origin")).map (fun kv => kv.2)

/-- The health_check handler: a straight-line construction of a constant
HealthResponse; it cannot raise, so it is always `ok`. -/
def health_check : Except String HealthResponse :=
  .ok { status := "healthy", message := "Shortbread API is running", version := "1.0.0" }

/-- The root handler: returns a constant one-field dict; always `ok`. -/
def root : Except String JsonObj :=
  .ok [("message", .str "Welcome to Shortbread API")]

/-- Framework default response for an unregistered path. -/
def notFoundResponse : Response :=
  { status := 404, headers := [], body := [("detail", .str "Not Found")] }

/-- Framework default response for a registered path with a wrong method. -/
def methodNotAllowedResponse : Response :=
  { status := 405, headers := [], body := [("detail", .str "Method Not Allowed")] }

/-- Framework response when a handler raises an exception. -/
def serverErrorResponse : Response :=
  { status := 500, headers := [], body := [("detail", .str "Internal Server Error")] }

/-- Framework wrapping of a handler result: 200 on success, 500 on a
raised exception. -/
def exceptToResponse (r : Except String JsonObj) : Response :=
  match r with
  | .ok b => { status := 200, headers := [], body := b }
  | .error _ => serverErrorResponse

/-- The routing table built by the two @app.get decorators, plus the
framework fallbacks for unknown paths and methods. -/
def handleRequest (req : Request) : Response :=
  if req.path = "/health" then
    if req.method = "GET" then exceptToResponse (health_check.map HealthResponse.toJson)
    else methodNotAllowedResponse
  else if req.path = "/" then
    if req.method = "GET" then exceptToResponse root
    else methodNotAllowedResponse
  else notFoundResponse

/-- CORSMiddleware on a plain request: when the Origin header is present
and allow-listed, the permissive CORS headers are attached; otherwise no
CORS headers are attached. -/
def corsResponseHeaders (cfg : CORSConfig) (origin : Option String) : List (String × String) :=
  match origin with
  | none => []
  | some o =>
    if o ∈ cfg.allow_origins then
      [("access-control-allow-origin", o), ("access-control-allow-credentials", "true")]
    else []

/-- The full service: middleware wrapped around the routing table. -/
def serve (cfg : AppConfig) (req : Request) : Response :=
  let base := handleRequest req
  { base with headers := corsResponseHeaders cfg.cors req.origin ++ base.headers }

/-- One request handled against the module-level state (the app object):
the handlers read nothing mutable and write nothing, so the state is
returned unchanged. -/
def step (s : AppConfig) (req : Request) : Response × AppConfig :=
  (serve s req, s)

/-- A whole sequence of requests handled in order, threading the state. -/
def runAll (s : AppConfig) : List Request → List Response × AppConfig
  | [] => ([], s)
  | req :: rest =>
    let p := step s req
    let q := runAll p.2 rest
    (p.1 :: q.1, q.2)

/-- Every application response carries no headers of its own; all response
headers come from the middleware. -/
theorem handleRequest_headers_nil (req : Request) : (handleRequest req).headers = [] := by
  unfold handleRequest
  split
  · split <;> rfl
  · split
    · split <;> rfl
    · rfl

/-- Claim C1: every GET request to /health, whatever its headers, yields
status 200 and a body with exactly the three fields status = healthy,
message = Shortbread API is running, version = 1.0.0. -/
theorem c1_health_get (hs : List (String × String)) :
    (serve appConfig { method := "GET", path := "/health", headers := hs }).status = 200 ∧
    (serve appConfig { method := "GET", path := "/health", headers := hs }).body =
      [("status", JsonVal.str "healthy"),
       ("message", JsonVal.str "Shortbread API is running"),
       ("version", JsonVal.str "1.0.0")] :=
  ⟨rfl, rfl⟩

/-- Claim C2: every GET request to /, whatever its headers, yields status
200 and the body with the single field message = Welcome to Shortbread API. -/
theorem c2_root_get (hs : List (String × String)) :
    (serve appConfig { method := "GET", path := "/", headers := hs }).status = 200 ∧
    (serve appConfig { method := "GET", path := "/", headers := hs }).body =
      [("message", JsonVal.str "Welcome to Shortbread API")] :=
  ⟨rfl, rfl⟩

/-- Claim C3: the CORS configuration allow-lists exactly the two
development origins, permits all methods and headers, allows credentials,
and every request whose Origin header is allow-listed receives the
permissive CORS response headers. -/
theorem c3_cors_allowlist (req : Request) (o : String)
    (ho : req.origin = some o) (hmem : o ∈ appConfig.cors.allow_origins) :
    appConfig.cors.allow_origins = ["http://localhost:3000", "http://localhost:5173"] ∧
    appConfig.cors.allow_methods = ["*"] ∧
    appConfig.cors.allow_headers = ["*"] ∧
    appConfig.cors.allow_credentials = true ∧
    (serve appConfig req).headers =
      [("access-control-allow-origin", o), ("access-control-allow-credentials", "true")] := by
  refine ⟨rfl, rfl, rfl, rfl, ?_⟩
  simp [serve, handleRequest_headers_nil, corsResponseHeaders, ho, hmem]

theorem c3_cors_allowlist_witness :
    appConfig.cors.allow_origins = ["http://localhost:3000", "http://localhost:5173"] ∧
    appConfig.cors.allow_methods = ["*"] ∧
    appConfig.cors.allow_headers = ["*"] ∧
    appConfig.cors.allow_credentials = true ∧
    (serve appConfig
        { method := "GET", path := "/health",
          headers := [("origin", "http://localhost:3000")] }).headers =
      [("access-control-allow-origin", "http://localhost:3000"),
       ("access-control-allow-credentials", "true")] :=
  c3_cors_allowlist
    { method := "GET", path := "/health", headers := [("origin", "http://localhost:3000")] }
    "http://localhost:3000" (by decide) (by decide)

/-- Claim C4: a request whose Origin header is not allow-listed receives
no CORS response headers at all; in particular no
access-control-allow-origin header appears in the response. -/
theorem c4_cors_reject (req : Request) (o : String)
    (ho : req.origin = some o) (hmem : o ∉ appConfig.cors.allow_origins) :
    (serve appConfig req).headers = [] ∧
    (serve appConfig req).headers.find? (fun kv => kv.1 == "access-control-allow-origin")
      = none := by
  have h : (serve appConfig req).headers = [] := by
    simp [serve, handleRequest_headers_nil, corsResponseHeaders, ho, hmem]
  exact ⟨h, by simp [h]⟩

theorem c4_cors_reject_witness :
    (serve appConfig
        { method := "GET", path := "/health",
          headers := [("origin", "http://evil.example")] }).headers = [] ∧
    (serve appConfig
        { method := "GET", path := "/health",
          headers := [("origin", "http://evil.example")] }).headers.find?
        (fun kv => kv.1 == "access-control-allow-origin") = none :=
  c4_cors_reject
    { method := "GET", path := "/health", headers := [("origin", "http://evil.example")] }
    "http://evil.example" (by decide) (by decide)

/-- Claim C5: for any two GET requests to the same registered path, the
serialized JSON bodies are byte-identical: the body is a deterministic
function of the path alone, independent of headers and of any earlier
requests. -/
theorem c5_deterministic_body (r1 r2 : Request)
    (hm1 : r1.method = "GET") (hm2 : r2.method = "GET")
    (hp : r1.path = r2.path)
    (hreg : r1.path = "/health" ∨ r1.path = "/") :
    serializeObj (serve appConfig r1).body = serializeObj (serve appConfig r2).body := by
  have hb : (serve appConfig r1).body = (serve appConfig r2).body := by
    show (handleRequest r1).body = (handleRequest r2).body
    unfold handleRequest
    rw [hm1, hm2, hp]
  rw [hb]

theorem c5_deterministic_body_witness :
    serializeObj (serve appConfig { method := "GET", path := "/health", headers := [] }).body =
      serializeObj (serve appConfig
        { method := "GET", path := "/health", headers := [("x-extra", "1")] }).body :=
  c5_deterministic_body
    { method := "GET", path := "/health", headers := [] }
    { method := "GET", path := "/health", headers := [("x-extra", "1")] }
    rfl rfl rfl (Or.inl rfl)

/-- Claim C6: a GET request to any path other than /health and / falls
back to the framework default not-found response: status 404 (hence not
200) with the default detail body. -/
theorem c6_not_found (req : Request)
    (h1 : req.path ≠ "/health") (h2 : req.path ≠ "/") :
    (serve appConfig req).status = 404 ∧
    (serve appConfig req).status ≠ 200 ∧
    (serve appConfig req).body = [("detail", JsonVal.str "Not Found")] := by
  have hb : handleRequest req = notFoundResponse := by
    unfold handleRequest
    rw [if_neg h1, if_neg h2]
  refine ⟨?_, ?_, ?_⟩ <;> simp [serve, hb, notFoundResponse]

theorem c6_not_found_witness :
    (serve appConfig { method := "GET", path := "/nonexistent", headers := [] }).status = 404 ∧
    (serve appConfig { method := "GET", path := "/nonexistent", headers := [] }).status ≠ 200 ∧
    (serve appConfig { method := "GET", path := "/nonexistent", headers := [] }).body =
      [("detail", JsonVal.str "Not Found")] :=
  c6_not_found { method := "GET", path := "/nonexistent", headers := [] }
    (by decide) (by decide)

/-- Claim C7: handling requests leaves the module-level state unchanged:
after any sequence of requests the state equals the initial state, and the
responses are an independent map of a pure function over the requests, so
no request influences the handling of any other. -/
theorem c7_stateless (s : AppConfig) (reqs : List Request) :
    (runAll s reqs).2 = s ∧ (runAll s reqs).1 = reqs.map (serve s) := by
  induction reqs with
  | nil => exact ⟨rfl, rfl⟩
  | cons r rest ih =>
    refine ⟨?_, ?_⟩ <;> simp [runAll, step, ih.1, ih.2]

/-- Claim C8: the body of every GET /health response is the serialization
of a HealthResponse record: exactly the three keys status, message,
version in order, every value a string. -/
theorem c8_health_shape (hs : List (String × String)) :
    ∃ h : HealthResponse,
      (serve appConfig { method := "GET", path := "/health", headers := hs }).body = h.toJson ∧
      ((serve appConfig { method := "GET", path := "/health", headers := hs }).body.map
        Prod.fst) = ["status", "message", "version"] ∧
      ((serve appConfig { method := "GET", path := "/health", headers := hs }).body.all
        (fun kv => kv.2.isStr)) = true :=
  ⟨{ status := "healthy", message := "Shortbread API is running", version := "1.0.0" },
    rfl, rfl, rfl⟩

/-- Claim C9: a request to /health or / with a method other than GET does
not get the 200 success body; it gets the framework method-not-allowed
response, since each path is registered for GET only. -/
theorem c9_method_not_allowed (m p : String) (hs : List (String × String))
    (hm : m ≠ "GET") (hp : p = "/health" ∨ p = "/") :
    (serve appConfig { method := m, path := p, headers := hs }).status = 405 ∧
    (serve appConfig { method := m, path := p, headers := hs }).status ≠ 200 ∧
    (serve appConfig { method := m, path := p, headers := hs }).body =
      [("detail", JsonVal.str "Method Not Allowed")] := by
  have hb : handleRequest { method := m, path := p, headers := hs } =
      methodNotAllowedResponse := by
    unfold handleRequest
    rcases hp with hp | hp <;> subst hp <;> simp [hm]
  refine ⟨?_, ?_, ?_⟩ <;> simp [serve, hb, methodNotAllowedResponse]

theorem c9_method_not_allowed_witness :
    (serve appConfig { method := "POST", path := "/health", headers := [] }).status = 405 ∧
    (serve appConfig { method := "POST", path := "/health", headers := [] }).status ≠ 200 ∧
    (serve appConfig { method := "POST", path := "/health", headers := [] }).body =
      [("detail", JsonVal.str "Method Not Allowed")] :=
  c9_method_not_allowed "POST" "/health" [] (by decide) (Or.inl rfl)

/-- Claim C10: both handlers are total: each is a straight-line
construction of constants that returns ok and never raises, so the
framework error branch (status 500) is unreachable for every request. -/
theorem c10_total_handlers (req : Request) :
    health_check = Except.ok
      { status := "healthy", message := "Shortbread API is running", version := "1.0.0" } ∧
    root = Except.ok [("message", JsonVal.str "Welcome to Shortbread API")] ∧
    (serve appConfig req).status ∈ ([200, 404, 405] : List Nat) := by
  refine ⟨rfl, rfl, ?_⟩
  show (handleRequest req).status ∈ ([200, 404, 405] : List Nat)
  unfold handleRequest
  split
  · split <;> simp [exceptToResponse, health_check, Except.map, methodNotAllowedResponse]
  · split
    · split <;> simp [exceptToResponse, root, Except.map, methodNotAllowedResponse]
    · simp [notFoundResponse]
